import Mathlib

/-!
Verification development for the Safe Return face-recognition gateway
(`api.py` / `wsgi.py`). The Flask handler `recognize` is shallowly embedded
as a pure function over an environment oracle describing the external
collaborators (base64/PIL decoding, the DeepFace matcher, the pandas Excel
reader), a small JSON value type for request bodies, and an explicit
boolean state tracking whether the temporary image file exists on disk.
-/

namespace SafeReturn

/-- JSON values, as produced by Flask's `request.get_json`. Numbers are
modelled as rationals. -/
inductive JValue where
  | jnull : JValue
  | jbool : Bool → JValue
  | jnum : ℚ → JValue
  | jstr : String → JValue
  | jarr : List JValue → JValue
  | jobj : List (String × JValue) → JValue

/-- Python truthiness of a JSON value (`if not data`, `if not image_b64`). -/
def truthy : JValue → Bool
  | JValue.jnull => false
  | JValue.jbool b => b
  | JValue.jnum n => n ≠ 0
  | JValue.jstr s => s ≠ ""
  | JValue.jarr xs => ¬ xs.isEmpty
  | JValue.jobj fs => ¬ fs.isEmpty

/-- `dict.get` on the parsed JSON object: first binding of the key, if any. -/
def getField (fields : List (String × JValue)) (key : String) : Option JValue :=
  (fields.find? (fun p => p.fst = key)).map Prod.snd

/-- Python `len(v)` is defined for strings, lists and dicts; it raises
`TypeError` on numbers and booleans. -/
def hasLen : JValue → Bool
  | JValue.jstr _ => true
  | JValue.jarr _ => true
  | JValue.jobj _ => true
  | _ => false

/-- The exceptions the handler can let escape. -/
inductive PyError where
  | typeError : PyError
  | attributeError : PyError
deriving DecidableEq

/-- JSON values appearing in responses built by `jsonify`. -/
inductive RJson where
  | rnull : RJson
  | rbool : Bool → RJson
  | rnum : ℚ → RJson
  | rstr : String → RJson
  | robj : List (String × RJson) → RJson

/-- Outcome of running the handler body: an HTTP response (status and JSON
body) or an uncaught Python exception. -/
inductive HandlerResult where
  | resp : Nat → RJson → HandlerResult
  | raised : PyError → HandlerResult

/-- `jsonify({"error": msg})`. -/
def errObj (msg : String) : RJson :=
  RJson.robj [("error", RJson.rstr msg)]

/-- Field lookup in a response object built by `jsonify`. -/
def fieldOf (r : RJson) (key : String) : Option RJson :=
  match r with
  | RJson.robj fs => (fs.find? (fun p => p.fst = key)).map Prod.snd
  | _ => none

/-- The 400 message of line 143. -/
def imageMissingMsg : String := "'image' field missing"

/-- Does the first list start with the second one? -/
def startsWithL : List Char → List Char → Bool
  | _, [] => true
  | [], _ :: _ => false
  | c :: cs, d :: ds => (c = d) && startsWithL cs ds

/-- Does the first list contain the second as a contiguous sublist? -/
def containsL : List Char → List Char → Bool
  | hay, needle =>
    match hay with
    | [] => needle.isEmpty
    | _ :: tl => startsWithL hay needle || containsL tl needle

/-- Substring test, as Python's `needle in hay` on strings. -/
def strContains (hay needle : String) : Bool :=
  containsL hay.toList needle.toList

/-- Everything after the first comma of the list, if a comma occurs. -/
def afterCommaL : List Char → Option (List Char)
  | [] => none
  | c :: tl => if c = ',' then some tl else afterCommaL tl

/-- `image_b64.split(",", 1)[1]` applied only when a comma is present:
everything after the first comma of the string. -/
def stripDataUrl (s : String) : String :=
  match afterCommaL s.toList with
  | some rest => String.mk rest
  | none => s

/-- `os.path.basename`: the part of the path after the last slash. -/
def basename (p : String) : String :=
  String.mk (((p.toList.reverse).takeWhile (fun c => c ≠ '/')).reverse)

/-- Root part of `os.path.splitext` applied to a basename: leading dots do
not start an extension; otherwise everything from the last dot on is the
extension and is dropped. -/
def splitextRoot (b : String) : String :=
  let chars := b.toList
  let lead := chars.takeWhile (fun c => c = '.')
  let rest := chars.drop lead.length
  if rest.contains '.' then
    String.mk (lead ++ (((rest.reverse).dropWhile (fun c => c ≠ '.')).drop 1).reverse)
  else String.mk (lead ++ rest)

/-- Round half to even (Python's `round`) of a rational to an integer. -/
def roundHalfEven (x : ℚ) : ℤ :=
  let f : ℤ := ⌊x⌋
  let frac : ℚ := x - f
  if frac < 1/2 then f
  else if frac > 1/2 then f + 1
  else if f % 2 = 0 then f else f + 1

/-- Python `round(x, 1)`. -/
def roundPy1 (x : ℚ) : ℚ :=
  (roundHalfEven (x * 10) : ℚ) / 10

/-! ## Configuration constants (`api.py` lines 90-93) -/

def EXCEL_PATH : String := "sheet.xlsx"
def DB_PATH : String := "data"
def CONFIDENCE_THRESHOLD : ℚ := 6/10
def TEMP_IMAGE : String := "temp_query.jpg"

/-- The process configuration, as a function of the OS environment
(`os.environ`-style lookup). `api.py` lines 90-93 assign the four string
and numeric constants directly; no environment lookup occurs anywhere in
the file, so the result ignores its argument. -/
structure Config where
  excelPath : String
  dbPath : String
  threshold : ℚ
  tempImage : String
deriving DecidableEq

def configOf (_osEnv : String → Option String) : Config :=
  { excelPath := EXCEL_PATH
    dbPath := DB_PATH
    threshold := CONFIDENCE_THRESHOLD
    tempImage := TEMP_IMAGE }

/-- Modelled from the spec: the claimed environment-overridable
configuration surface — a config reader that, for some environment-variable
key per setting, returns the override when that variable is set and the
file-system default otherwise. `specConfigOf` uses the natural keys. -/
def specConfigOf (osEnv : String → Option String) : Config :=
  { excelPath := (osEnv "EXCEL_PATH").getD EXCEL_PATH
    dbPath := (osEnv "DB_PATH").getD DB_PATH
    threshold := CONFIDENCE_THRESHOLD
    tempImage := TEMP_IMAGE }

/-! ## External collaborators -/

/-- Outcome of the decode stage's externally-performed work
(`base64.b64decode`, `PIL Image.open/convert/save`) on the stripped base64
payload. `failAfterSave` is a failure raised inside the `try` block after
the temporary file has been created by `image.save` (for example an
encoder error partway through saving, or a failure on the statement after
the save). -/
inductive DecodeOutcome where
  | failBeforeSave : String → DecodeOutcome
  | failAfterSave : String → DecodeOutcome
  | success : DecodeOutcome
deriving DecidableEq

/-- One row of a DeepFace result dataframe: identity path and distance. -/
structure MatchRow where
  identity : String
  distance : ℚ
deriving DecidableEq

/-- Behaviour of `DeepFace.find`: raise an exception with a message, or
return a list of dataframes (each a list of rows, already ranked). -/
inductive MatchOutcome where
  | raise : String → MatchOutcome
  | results : List (List MatchRow) → MatchOutcome
deriving DecidableEq

/-- One row of the Excel sheet, with the "Inmate Id" column already
string-converted (`astype(str)`) and the "Name" column string-converted. -/
structure ExcelRow where
  inmateId : String
  name : String
deriving DecidableEq

/-- The environment oracle: what the external collaborators do during this
request. `excel` is `none` when `pd.read_excel` raises. -/
structure Env where
  decode : String → DecodeOutcome
  matcher : MatchOutcome
  excel : Option (List ExcelRow)

/-- HTTP methods routed to `/recognize`. -/
inductive Method where
  | POST : Method
  | OPTIONS : Method
deriving DecidableEq

/-- Result of one `/recognize` request: the HTTP outcome, whether the
temporary image file exists on disk afterwards, and the path the decoded
image was saved to during this request (if the save step ran). -/
structure RecognizeOut where
  result : HandlerResult
  tempExists : Bool
  savedPath : Option String

/-- `person_name or f"ID: {person_id} (name not found)"` (line 219):
Python `or` falls through on `None` and on the empty string. -/
def nameOrFallback (personName : Option String) (personId : String) : String :=
  match personName with
  | some n => if n = "" then "ID: " ++ personId ++ " (name not found)" else n
  | none => "ID: " ++ personId ++ " (name not found)"

/-- Name lookup (lines 203-213): read the Excel sheet, keep rows whose
string-converted "Inmate Id" equals the person id, take the first row's
"Name"; any exception (unreadable sheet) leaves `person_name` as `None`. -/
def lookupName (excel : Option (List ExcelRow)) (personId : String) : Option String :=
  match excel with
  | none => none
  | some rows =>
    match rows.find? (fun r => r.inmateId = personId) with
    | none => none
    | some r => some r.name

/-- The success-path response object (lines 215-221). -/
def matchResponse (best : MatchRow) (excel : Option (List ExcelRow)) : RJson :=
  let distance := best.distance
  let confidence := roundPy1 ((1 - distance) * 100)
  let matched : Bool := if (1 - distance) ≥ CONFIDENCE_THRESHOLD then true else false
  let personId := splitextRoot (basename best.identity)
  let personName := lookupName excel personId
  RJson.robj
    [ ("match", RJson.rbool matched)
    , ("confidence", RJson.rnum confidence)
    , ("person_id", RJson.rstr personId)
    , ("person_name", RJson.rstr (nameOrFallback personName personId))
    , ("distance", RJson.rnum distance) ]

/-- The exact no-match body (lines 189-191). -/
def noMatchBody : RJson :=
  RJson.robj
    [ ("match", RJson.rbool false)
    , ("confidence", RJson.rnum 0)
    , ("person_id", RJson.rnull)
    , ("person_name", RJson.rnull)
    , ("message", RJson.rstr "No match found in database") ]

/-- The exact no-face body (lines 179-181). -/
def noFaceBody : RJson :=
  RJson.robj
    [ ("match", RJson.rbool false)
    , ("confidence", RJson.rnum 0)
    , ("person_id", RJson.rnull)
    , ("person_name", RJson.rnull)
    , ("message", RJson.rstr "No face detected in image") ]

/-- Stages 3-5 of the handler (lines 161-221), entered with the temporary
file on disk: run the matcher, `_cleanup()`, parse results, look up the
name, assemble the response. -/
def matchStage (env : Env) : HandlerResult × Bool :=
  match env.matcher with
  | MatchOutcome.raise msg =>
    if strContains msg "Face could not be detected" || strContains msg "No face" then
      (HandlerResult.resp 200 noFaceBody, false)
    else
      (HandlerResult.resp 500 (errObj ("DeepFace error: " ++ msg)), false)
  | MatchOutcome.results rs =>
    match rs with
    | [] => (HandlerResult.resp 200 noMatchBody, false)
    | frame :: _ =>
      match frame with
      | [] => (HandlerResult.resp 200 noMatchBody, false)
      | best :: _ =>
        (HandlerResult.resp 200 (matchResponse best env.excel), false)

/-- What the decode `try` block does to an image value that survived
`len`: a string has any data-URL prefix stripped and goes to the external
decoder; non-string values fail inside the `try` (`.split` / `b64decode`
raise on them) before any save. -/
def decodeOutcomeOf (env : Env) (v : JValue) : DecodeOutcome :=
  match v with
  | JValue.jstr s => env.decode (stripDataUrl s)
  | _ => DecodeOutcome.failBeforeSave "argument should be a bytes-like object or ASCII string"

/-- Stage 2 of the handler (lines 148-159) and onward. On decode failure
the handler returns 400 without cleanup; on success it proceeds with the
temporary file saved. -/
def decodeStage (env : Env) (v : JValue) (temp0 : Bool) : RecognizeOut :=
  match decodeOutcomeOf env v with
  | DecodeOutcome.failBeforeSave msg =>
    { result := HandlerResult.resp 400 (errObj ("Could not decode image: " ++ msg))
      tempExists := temp0
      savedPath := none }
  | DecodeOutcome.failAfterSave msg =>
    { result := HandlerResult.resp 400 (errObj ("Could not decode image: " ++ msg))
      tempExists := true
      savedPath := some TEMP_IMAGE }
  | DecodeOutcome.success =>
    { result := (matchStage env).1, tempExists := (matchStage env).2
      savedPath := some TEMP_IMAGE }

/-- The `/recognize` handler (`api.py` lines 126-221) as a function of the
environment oracle, the request method, the parsed JSON body
(`request.get_json(silent=True)`: `none` for a missing or unparsable
body), and whether the temporary file already exists. -/
def recognize (env : Env) (method : Method) (body : Option JValue) (temp0 : Bool) :
    RecognizeOut :=
  match method with
  | Method.OPTIONS =>
    { result := HandlerResult.resp 200 (RJson.robj [("ok", RJson.rbool true)])
      tempExists := temp0, savedPath := none }
  | Method.POST =>
    match body with
    | none =>
      { result := HandlerResult.resp 400 (errObj "No JSON body received")
        tempExists := temp0, savedPath := none }
    | some data =>
      if ¬ truthy data then
        { result := HandlerResult.resp 400 (errObj "No JSON body received")
          tempExists := temp0, savedPath := none }
      else
        match data with
        | JValue.jobj fields =>
          match getField fields "image" with
          | none =>
            { result := HandlerResult.resp 400 (errObj imageMissingMsg)
              tempExists := temp0, savedPath := none }
          | some v =>
            if ¬ truthy v then
              { result := HandlerResult.resp 400 (errObj imageMissingMsg)
                tempExists := temp0, savedPath := none }
            else if ¬ hasLen v then
              { result := HandlerResult.raised PyError.typeError
                tempExists := temp0, savedPath := none }
            else
              decodeStage env v temp0
        | _ =>
          { result := HandlerResult.raised PyError.attributeError
            tempExists := temp0, savedPath := none }

/-- The conditions under which the handler answers 400: a missing or
unparsable JSON body, a falsy body, an object body without a truthy
`image` field, or a truthy `image` value that enters the decode `try`
block (so `len` applies to it) and whose decoding fails. -/
def wouldReturn400 (env : Env) (body : Option JValue) : Bool :=
  match body with
  | none => true
  | some data =>
    !truthy data ||
      match data with
      | JValue.jobj fields =>
        match getField fields "image" with
        | none => true
        | some v =>
          !truthy v || (hasLen v && decide (decodeOutcomeOf env v ≠ DecodeOutcome.success))
      | _ => false

/-- A convenient concrete environment for instantiations: decoding always
succeeds, with the given matcher behaviour and Excel contents. -/
def envSuccess (m : MatchOutcome) (x : Option (List ExcelRow)) : Env :=
  { decode := fun _ => DecodeOutcome.success, matcher := m, excel := x }

/-! ## Helper lemmas -/

lemma truthy_jstr {s : String} (hs : s ≠ "") : truthy (JValue.jstr s) = true := by
  simp [truthy, hs]

lemma recognize_reaches_decode (env : Env) (fields : List (String × JValue))
    (v : JValue) (temp0 : Bool)
    (himg : getField fields "image" = some v)
    (hv : truthy v = true) (hlen : hasLen v = true) :
    recognize env Method.POST (some (JValue.jobj fields)) temp0 =
      decodeStage env v temp0 := by
  cases fields with
  | nil => simp [getField] at himg
  | cons p ps =>
    have hobj : truthy (JValue.jobj (p :: ps)) = true := by simp [truthy]
    simp [recognize, himg, hv, hlen, hobj]

lemma recognize_good (env : Env) (fields : List (String × JValue))
    (v : JValue) (temp0 : Bool)
    (himg : getField fields "image" = some v)
    (hv : truthy v = true) (hlen : hasLen v = true)
    (hdec : decodeOutcomeOf env v = DecodeOutcome.success) :
    recognize env Method.POST (some (JValue.jobj fields)) temp0 =
      { result := (matchStage env).1, tempExists := (matchStage env).2,
        savedPath := some TEMP_IMAGE } := by
  rw [recognize_reaches_decode env fields v temp0 himg hv hlen]
  simp [decodeStage, hdec]

lemma matchStage_snd (env : Env) : (matchStage env).2 = false := by
  unfold matchStage
  repeat' split
  all_goals rfl

lemma matchStage_fst_ne_400 (env : Env) (msg : String) :
    (matchStage env).1 ≠ HandlerResult.resp 400 (errObj msg) := by
  unfold matchStage
  repeat' split
  all_goals simp

lemma matchResponse_eq (best : MatchRow) (excel : Option (List ExcelRow)) :
    matchResponse best excel = RJson.robj
      [ ("match", RJson.rbool
          (if (1 - best.distance) ≥ CONFIDENCE_THRESHOLD then true else false))
      , ("confidence", RJson.rnum (roundPy1 ((1 - best.distance) * 100)))
      , ("person_id", RJson.rstr (splitextRoot (basename best.identity)))
      , ("person_name", RJson.rstr
          (nameOrFallback (lookupName excel (splitextRoot (basename best.identity)))
            (splitextRoot (basename best.identity))))
      , ("distance", RJson.rnum best.distance) ] := rfl

lemma recognize_match_result (env : Env) (fields : List (String × JValue))
    (s : String) (best : MatchRow) (tl : List MatchRow) (fr : List (List MatchRow))
    (temp0 : Bool)
    (himg : getField fields "image" = some (JValue.jstr s)) (hs : s ≠ "")
    (hdec : env.decode (stripDataUrl s) = DecodeOutcome.success)
    (hmat : env.matcher = MatchOutcome.results ((best :: tl) :: fr)) :
    (recognize env Method.POST (some (JValue.jobj fields)) temp0).result =
      HandlerResult.resp 200 (matchResponse best env.excel) := by
  rw [recognize_good env fields (JValue.jstr s) temp0 himg (truthy_jstr hs) rfl hdec]
  simp [matchStage, hmat]

lemma decodeStage_savedPath (env : Env) (v : JValue) (temp0 : Bool) :
    (decodeStage env v temp0).savedPath = none ∨
      (decodeStage env v temp0).savedPath = some TEMP_IMAGE := by
  unfold decodeStage
  split <;> simp

/-! ## Claim theorems -/

/-- C1: for every matched result returned by `/recognize`, the response's
`confidence` equals `round((1 - distance) * 100, 1)` and its `match` flag
equals `(1 - distance) >= threshold` with the configured threshold `0.6`;
the formula applies unclamped for any rational distance, so distances
above 1 or below 0 yield confidences below 0 or above 100. -/
theorem recognize_score_formula (env : Env) (fields : List (String × JValue))
    (s : String) (best : MatchRow) (tl : List MatchRow)
    (fr : List (List MatchRow)) (temp0 : Bool)
    (himg : getField fields "image" = some (JValue.jstr s)) (hs : s ≠ "")
    (hdec : env.decode (stripDataUrl s) = DecodeOutcome.success)
    (hmat : env.matcher = MatchOutcome.results ((best :: tl) :: fr)) :
    (recognize env Method.POST (some (JValue.jobj fields)) temp0).result =
        HandlerResult.resp 200 (matchResponse best env.excel) ∧
    fieldOf (matchResponse best env.excel) "confidence" =
        some (RJson.rnum (roundPy1 ((1 - best.distance) * 100))) ∧
    fieldOf (matchResponse best env.excel) "match" =
        some (RJson.rbool (decide ((1 - best.distance) ≥ CONFIDENCE_THRESHOLD))) ∧
    CONFIDENCE_THRESHOLD = 6/10 := by
  refine ⟨?_, rfl, rfl, rfl⟩
  rw [recognize_good env fields (JValue.jstr s) temp0 himg (truthy_jstr hs) rfl hdec]
  simp [matchStage, hmat]

/-- Witness for C1 at distance `2`: decoding succeeds, the matcher returns
one row at distance 2, so the confidence is the unclamped `-100`. -/
theorem recognize_score_formula_witness :
    ((recognize (envSuccess (MatchOutcome.results [[⟨"data/007.jpg", 2⟩]]) none)
        Method.POST (some (JValue.jobj [("image", JValue.jstr "img")])) false).result =
        HandlerResult.resp 200 (matchResponse ⟨"data/007.jpg", 2⟩ none) ∧
      fieldOf (matchResponse ⟨"data/007.jpg", 2⟩ none) "confidence" =
        some (RJson.rnum (roundPy1 ((1 - (⟨"data/007.jpg", 2⟩ : MatchRow).distance) * 100))) ∧
      fieldOf (matchResponse ⟨"data/007.jpg", 2⟩ none) "match" =
        some (RJson.rbool
          (decide ((1 - (⟨"data/007.jpg", 2⟩ : MatchRow).distance) ≥ CONFIDENCE_THRESHOLD))) ∧
      CONFIDENCE_THRESHOLD = 6/10) ∧
    roundPy1 ((1 - (2 : ℚ)) * 100) = -100 ∧ ((-100 : ℚ) < 0) := by
  refine ⟨recognize_score_formula _ _ "img" _ [] [] false rfl (by decide) rfl rfl,
    by norm_num [roundPy1, roundHalfEven], by norm_num⟩

/-- C2: when the matcher raises an exception whose message contains one of
the known no-face substrings, the handler returns 200 with exactly the
no-face object; any other matcher exception yields a 500 error response. -/
theorem recognize_matcher_exception (env : Env) (fields : List (String × JValue))
    (s msg : String) (temp0 : Bool)
    (himg : getField fields "image" = some (JValue.jstr s)) (hs : s ≠ "")
    (hdec : env.decode (stripDataUrl s) = DecodeOutcome.success)
    (hmat : env.matcher = MatchOutcome.raise msg) :
    ((strContains msg "Face could not be detected" || strContains msg "No face") = true →
      (recognize env Method.POST (some (JValue.jobj fields)) temp0).result =
        HandlerResult.resp 200 (RJson.robj
          [ ("match", RJson.rbool false)
          , ("confidence", RJson.rnum 0)
          , ("person_id", RJson.rnull)
          , ("person_name", RJson.rnull)
          , ("message", RJson.rstr "No face detected in image") ])) ∧
    ((strContains msg "Face could not be detected" || strContains msg "No face") = false →
      (recognize env Method.POST (some (JValue.jobj fields)) temp0).result =
        HandlerResult.resp 500 (errObj ("DeepFace error: " ++ msg))) := by
  rw [recognize_good env fields (JValue.jstr s) temp0 himg (truthy_jstr hs) rfl hdec]
  constructor
  · intro h
    simp [matchStage, hmat, h, noFaceBody]
  · intro h
    simp [matchStage, hmat, h]

/-- Witness for C2: a message containing "No face" produces the exact
no-face 200 body. -/
theorem recognize_matcher_exception_witness :
    (((strContains "Exception: No face found" "Face could not be detected" ||
        strContains "Exception: No face found" "No face") = true →
      (recognize (envSuccess (MatchOutcome.raise "Exception: No face found") none)
          Method.POST (some (JValue.jobj [("image", JValue.jstr "img")])) false).result =
        HandlerResult.resp 200 (RJson.robj
          [ ("match", RJson.rbool false)
          , ("confidence", RJson.rnum 0)
          , ("person_id", RJson.rnull)
          , ("person_name", RJson.rnull)
          , ("message", RJson.rstr "No face detected in image") ])) ∧
    ((strContains "Exception: No face found" "Face could not be detected" ||
        strContains "Exception: No face found" "No face") = false →
      (recognize (envSuccess (MatchOutcome.raise "Exception: No face found") none)
          Method.POST (some (JValue.jobj [("image", JValue.jstr "img")])) false).result =
        HandlerResult.resp 500 (errObj ("DeepFace error: " ++ "Exception: No face found")))) ∧
    (strContains "Exception: No face found" "No face") = true := by
  refine ⟨recognize_matcher_exception _ _ "img" _ false rfl (by decide) rfl rfl, by decide⟩

/-- C3: when the matcher returns no result sets or an empty first result
set, the handler returns exactly the no-match object. -/
theorem recognize_no_match (env : Env) (fields : List (String × JValue))
    (s : String) (rs : List (List MatchRow)) (temp0 : Bool)
    (himg : getField fields "image" = some (JValue.jstr s)) (hs : s ≠ "")
    (hdec : env.decode (stripDataUrl s) = DecodeOutcome.success)
    (hmat : env.matcher = MatchOutcome.results rs)
    (hempty : rs = [] ∨ rs.head? = some []) :
    (recognize env Method.POST (some (JValue.jobj fields)) temp0).result =
      HandlerResult.resp 200 (RJson.robj
        [ ("match", RJson.rbool false)
        , ("confidence", RJson.rnum 0)
        , ("person_id", RJson.rnull)
        , ("person_name", RJson.rnull)
        , ("message", RJson.rstr "No match found in database") ]) := by
  rw [recognize_good env fields (JValue.jstr s) temp0 himg (truthy_jstr hs) rfl hdec]
  rcases hempty with h | h
  · subst h
    simp [matchStage, hmat, noMatchBody]
  · cases rs with
    | nil => simp at h
    | cons f fr =>
      have hf : f = [] := by simpa using h
      subst hf
      simp [matchStage, hmat, noMatchBody]

/-- Witness for C3: a matcher returning an empty list of dataframes. -/
theorem recognize_no_match_witness :
    (recognize (envSuccess (MatchOutcome.results []) none)
        Method.POST (some (JValue.jobj [("image", JValue.jstr "img")])) false).result =
      HandlerResult.resp 200 (RJson.robj
        [ ("match", RJson.rbool false)
        , ("confidence", RJson.rnum 0)
        , ("person_id", RJson.rnull)
        , ("person_name", RJson.rnull)
        , ("message", RJson.rstr "No match found in database") ]) :=
  recognize_no_match _ _ "img" [] false rfl (by decide) rfl rfl (Or.inl rfl)

/-- C4 counterexample: two distinct requests (different image payloads)
that both save their decoded image do so at the one fixed path
`temp_query.jpg` (`TEMP_IMAGE`, line 93, used at line 155); the temporary
filename is shared, not unique per request. -/
theorem temp_path_shared :
    (recognize (envSuccess (MatchOutcome.results []) none) Method.POST
        (some (JValue.jobj [("image", JValue.jstr "reqA")])) false).savedPath =
      some "temp_query.jpg" ∧
    (recognize (envSuccess (MatchOutcome.results []) none) Method.POST
        (some (JValue.jobj [("image", JValue.jstr "reqB")])) false).savedPath =
      some "temp_query.jpg" ∧
    "reqA" ≠ "reqB" :=
  ⟨rfl, rfl, by decide⟩

/-- C4 amended: every `/recognize` request that persists the decoded image
uses the same fixed temporary path `TEMP_IMAGE = "temp_query.jpg"`; no
request uses any other path. -/
theorem temp_path_fixed (env : Env) (method : Method) (body : Option JValue)
    (temp0 : Bool) :
    (recognize env method body temp0).savedPath = none ∨
      (recognize env method body temp0).savedPath = some TEMP_IMAGE := by
  unfold recognize
  repeat' split
  all_goals first
    | exact Or.inl rfl
    | exact decodeStage_savedPath _ _ _

/-- C5 counterexample: a decode-stage failure raised after the temporary
file was created (`failAfterSave`) returns the 400 decode error with the
temporary file still on disk — the decode `except` branch (lines 157-159)
does not call `_cleanup`. -/
theorem temp_leak_on_decode_failure :
    (recognize
        { decode := fun _ => DecodeOutcome.failAfterSave "broken image data"
          matcher := MatchOutcome.results [], excel := none }
        Method.POST (some (JValue.jobj [("image", JValue.jstr "img")])) false).savedPath =
      some TEMP_IMAGE ∧
    (recognize
        { decode := fun _ => DecodeOutcome.failAfterSave "broken image data"
          matcher := MatchOutcome.results [], excel := none }
        Method.POST (some (JValue.jobj [("image", JValue.jstr "img")])) false).result =
      HandlerResult.resp 400 (errObj ("Could not decode image: " ++ "broken image data")) ∧
    (recognize
        { decode := fun _ => DecodeOutcome.failAfterSave "broken image data"
          matcher := MatchOutcome.results [], excel := none }
        Method.POST (some (JValue.jobj [("image", JValue.jstr "img")])) false).tempExists =
      true :=
  ⟨rfl, rfl, rfl⟩

/-- C5 amended: on every exit path that goes through the matcher stage
(decode succeeded, so the temporary file was created) — success, matcher
failure, no-match and lookup failure alike — the temporary file is removed
before the JSON response; only a decode-stage failure after saving leaves
it behind. -/
theorem temp_cleanup_after_decode (env : Env) (fields : List (String × JValue))
    (s : String) (temp0 : Bool)
    (himg : getField fields "image" = some (JValue.jstr s)) (hs : s ≠ "")
    (hdec : env.decode (stripDataUrl s) = DecodeOutcome.success) :
    (recognize env Method.POST (some (JValue.jobj fields)) temp0).tempExists = false := by
  rw [recognize_good env fields (JValue.jstr s) temp0 himg (truthy_jstr hs) rfl hdec]
  exact matchStage_snd env

/-- Witness for amended C5: a successful match run ends with the
temporary file removed. -/
theorem temp_cleanup_after_decode_witness :
    (recognize (envSuccess (MatchOutcome.results []) none) Method.POST
        (some (JValue.jobj [("image", JValue.jstr "img")])) true).tempExists = false :=
  temp_cleanup_after_decode _ _ "img" true rfl (by decide) rfl

/-- C6: when the best match's identifier is absent from the Excel sheet,
or the sheet cannot be read at all, the request still succeeds with
`person_id` the identifier and `person_name` the fallback string
`"ID: <identifier> (name not found)"`. -/
theorem recognize_name_fallback (env : Env) (fields : List (String × JValue))
    (s : String) (best : MatchRow) (tl : List MatchRow)
    (fr : List (List MatchRow)) (temp0 : Bool)
    (himg : getField fields "image" = some (JValue.jstr s)) (hs : s ≠ "")
    (hdec : env.decode (stripDataUrl s) = DecodeOutcome.success)
    (hmat : env.matcher = MatchOutcome.results ((best :: tl) :: fr))
    (hlook : lookupName env.excel (splitextRoot (basename best.identity)) = none) :
    (recognize env Method.POST (some (JValue.jobj fields)) temp0).result =
        HandlerResult.resp 200 (matchResponse best env.excel) ∧
    fieldOf (matchResponse best env.excel) "person_id" =
        some (RJson.rstr (splitextRoot (basename best.identity))) ∧
    fieldOf (matchResponse best env.excel) "person_name" =
        some (RJson.rstr
          ("ID: " ++ splitextRoot (basename best.identity) ++ " (name not found)")) := by
  refine ⟨?_, rfl, ?_⟩
  · rw [recognize_good env fields (JValue.jstr s) temp0 himg (truthy_jstr hs) rfl hdec]
    simp [matchStage, hmat]
  · simp [matchResponse, fieldOf, hlook, nameOrFallback]

/-- Witness for C6: identifier "007" is present in the gallery (file
`data/007.jpg`) but absent from the sheet, which only holds id "001". -/
theorem recognize_name_fallback_witness :
    ((recognize (envSuccess (MatchOutcome.results [[⟨"data/007.jpg", 3/10⟩]])
          (some [⟨"001", "Alice"⟩]))
        Method.POST (some (JValue.jobj [("image", JValue.jstr "img")])) false).result =
        HandlerResult.resp 200
          (matchResponse ⟨"data/007.jpg", 3/10⟩ (some [⟨"001", "Alice"⟩])) ∧
      fieldOf (matchResponse ⟨"data/007.jpg", 3/10⟩ (some [⟨"001", "Alice"⟩])) "person_id" =
        some (RJson.rstr (splitextRoot (basename "data/007.jpg"))) ∧
      fieldOf (matchResponse ⟨"data/007.jpg", 3/10⟩ (some [⟨"001", "Alice"⟩])) "person_name" =
        some (RJson.rstr
          ("ID: " ++ splitextRoot (basename "data/007.jpg") ++ " (name not found)"))) ∧
    splitextRoot (basename "data/007.jpg") = "007" :=
  ⟨recognize_name_fallback _ _ "img" _ [] [] false rfl (by decide) rfl rfl rfl, by decide⟩

/-- C7: a POST to `/recognize` yields HTTP 400 with an error object
exactly when the JSON body is missing or falsy, the body is an object
without a truthy `image` field, or the `image` value reaches the decode
`try` block and decoding fails (this includes non-string values with a
length, on which `.split`/`b64decode` raise inside the `try`); and in the
missing-field case the message is `'image' field missing`, which mentions
`image`. -/
theorem recognize_400_iff (env : Env) (body : Option JValue) (temp0 : Bool) :
    ((∃ msg, (recognize env Method.POST body temp0).result =
        HandlerResult.resp 400 (errObj msg)) ↔ wouldReturn400 env body = true) ∧
    (∀ fields, body = some (JValue.jobj fields) →
      truthy (JValue.jobj fields) = true →
      (getField fields "image" = none ∨
        (∃ v, getField fields "image" = some v ∧ truthy v = false)) →
      (recognize env Method.POST body temp0).result =
          HandlerResult.resp 400 (errObj imageMissingMsg) ∧
        strContains imageMissingMsg "image" = true) := by
  constructor
  · cases body with
    | none => simp [recognize, wouldReturn400, errObj]
    | some data =>
      cases hd : truthy data with
      | false => simp [recognize, wouldReturn400, hd, errObj]
      | true =>
        cases data with
        | jnull => simp [truthy] at hd
        | jbool b => simp [recognize, wouldReturn400, hd, errObj]
        | jnum n => simp [recognize, wouldReturn400, hd, errObj]
        | jstr s => simp [recognize, wouldReturn400, hd, errObj]
        | jarr xs => simp [recognize, wouldReturn400, hd, errObj]
        | jobj fields =>
          cases hf : getField fields "image" with
          | none => simp [recognize, wouldReturn400, hd, hf, errObj]
          | some v =>
            cases hv : truthy v with
            | false => simp [recognize, wouldReturn400, hd, hf, hv, errObj]
            | true =>
              cases hl : hasLen v with
              | false => simp [recognize, wouldReturn400, hd, hf, hv, hl, errObj]
              | true =>
                rw [recognize_reaches_decode env fields v temp0 hf hv hl]
                cases ho : decodeOutcomeOf env v with
                | failBeforeSave m =>
                  simp [decodeStage, wouldReturn400, hd, hf, hv, hl, ho, errObj]
                | failAfterSave m =>
                  simp [decodeStage, wouldReturn400, hd, hf, hv, hl, ho, errObj]
                | success =>
                  simp only [decodeStage, ho, wouldReturn400, hd, hf, hv, hl]
                  simp only [Bool.not_true, Bool.false_or, Bool.true_and]
                  constructor
                  · rintro ⟨msg, hm⟩
                    exact absurd hm (matchStage_fst_ne_400 env msg)
                  · intro hcontra
                    simp at hcontra
  · rintro fields rfl htr hmiss
    refine ⟨?_, by decide⟩
    rcases hmiss with hnone | ⟨v, hsome, hvf⟩
    · simp [recognize, htr, hnone]
    · simp [recognize, htr, hsome, hvf]

/-- Witness for C7 at a concrete request: a missing body is reported as
400, matching `wouldReturn400`. -/
theorem recognize_400_iff_witness :
    ((∃ msg, (recognize (envSuccess (MatchOutcome.results []) none)
          Method.POST none false).result = HandlerResult.resp 400 (errObj msg)) ↔
        wouldReturn400 (envSuccess (MatchOutcome.results []) none) none = true) ∧
    (∀ fields, (none : Option JValue) = some (JValue.jobj fields) →
      truthy (JValue.jobj fields) = true →
      (getField fields "image" = none ∨
        (∃ v, getField fields "image" = some v ∧ truthy v = false)) →
      (recognize (envSuccess (MatchOutcome.results []) none)
          Method.POST none false).result =
          HandlerResult.resp 400 (errObj imageMissingMsg) ∧
        strContains imageMissingMsg "image" = true) :=
  recognize_400_iff (envSuccess (MatchOutcome.results []) none) none false

/-- C8 counterexample: setting every environment variable (to
"/custom/override") leaves the configuration identical to the default
one — `api.py` lines 90-93 hardcode all four settings and never read the
environment — whereas the spec-modelled overridable reader does change. -/
theorem config_ignores_environment :
    configOf (fun _ => some "/custom/override") = configOf (fun _ => none) ∧
    (configOf (fun _ => some "/custom/override")).excelPath = "sheet.xlsx" ∧
    (configOf (fun _ => some "/custom/override")).dbPath = "data" ∧
    (configOf (fun _ => some "/custom/override")).threshold = 6/10 ∧
    specConfigOf (fun _ => some "/custom/override") ≠ specConfigOf (fun _ => none) := by
  refine ⟨rfl, rfl, rfl, rfl, fun h => ?_⟩
  have h2 := congrArg Config.excelPath h
  simp [specConfigOf, EXCEL_PATH] at h2

/-- C8 amended: the identity-table path, gallery path, threshold and
temporary-image name are fixed constants (`sheet.xlsx`, `data`, 0.6,
`temp_query.jpg`); the configuration is the same for every OS
environment, with no override mechanism. -/
theorem config_constant (osEnv : String → Option String) :
    configOf osEnv =
      { excelPath := "sheet.xlsx", dbPath := "data", threshold := 6/10,
        tempImage := "temp_query.jpg" } := rfl

/-- Witness for amended C8 at a concrete environment. -/
theorem config_constant_witness :
    configOf (fun _ => none) =
      { excelPath := "sheet.xlsx", dbPath := "data", threshold := 6/10,
        tempImage := "temp_query.jpg" } :=
  config_constant (fun _ => none)

/-- C9: a well-formed JSON object body whose `image` field is the JSON
number 5 (truthy, not a string) makes the handler raise an uncaught
`TypeError` at `len(image_b64)` instead of returning a 400 JSON error
response: the handler is not total over JSON bodies. -/
theorem recognize_nonstring_image_raises :
    (recognize (envSuccess (MatchOutcome.results []) none) Method.POST
        (some (JValue.jobj [("image", JValue.jnum 5)])) false).result =
      HandlerResult.raised PyError.typeError ∧
    truthy (JValue.jnum 5) = true ∧
    (∀ st b, HandlerResult.raised PyError.typeError ≠ HandlerResult.resp st b) := by
  refine ⟨?_, ?_, fun st b h => by cases h⟩
  · have h5 : truthy (JValue.jnum 5) = true := by
      simp [truthy]
    have hobj : truthy (JValue.jobj [("image", JValue.jnum 5)]) = true := by
      simp [truthy]
    simp [recognize, getField, h5, hobj, hasLen]
  · simp [truthy]

/-- C10 counterexample: at distance exactly 1 (below the 0.6 threshold),
the response has `match:false` and still carries the candidate's
`person_id`, `person_name` and `distance`, but its confidence is 0 — not
nonzero — the same number the no-match and no-face responses carry. -/
theorem below_threshold_zero_confidence :
    (recognize (envSuccess (MatchOutcome.results [[⟨"data/007.jpg", 1⟩]]) (some []))
        Method.POST (some (JValue.jobj [("image", JValue.jstr "img")])) false).result =
      HandlerResult.resp 200 (RJson.robj
        [ ("match", RJson.rbool false)
        , ("confidence", RJson.rnum 0)
        , ("person_id", RJson.rstr "007")
        , ("person_name", RJson.rstr "ID: 007 (name not found)")
        , ("distance", RJson.rnum 1) ]) ∧
    ((1 : ℚ) - 1) < CONFIDENCE_THRESHOLD := by
  constructor
  · rw [recognize_match_result (envSuccess (MatchOutcome.results [[⟨"data/007.jpg", 1⟩]])
        (some [])) [("image", JValue.jstr "img")] "img" ⟨"data/007.jpg", 1⟩ [] [] false
        rfl (by decide) rfl rfl, matchResponse_eq]
    have hpid : splitextRoot (basename "data/007.jpg") = "007" := by decide
    have hname : nameOrFallback (lookupName (some []) "007") "007" =
        "ID: 007 (name not found)" := by decide
    norm_num [hpid, hname, envSuccess, CONFIDENCE_THRESHOLD, roundPy1, roundHalfEven]
  · norm_num [CONFIDENCE_THRESHOLD]

/-- C10 amended: when the best distance puts `(1 - distance)` below the
threshold, the response has `match:false` but — unlike the no-match and
no-face responses — still carries the best candidate's `person_id`,
resolved `person_name`, the computed confidence (zero exactly when
`(1-distance)*100` rounds to zero, nonzero otherwise), and the
distance. -/
theorem recognize_below_threshold (env : Env) (fields : List (String × JValue))
    (s : String) (best : MatchRow) (tl : List MatchRow)
    (fr : List (List MatchRow)) (temp0 : Bool)
    (himg : getField fields "image" = some (JValue.jstr s)) (hs : s ≠ "")
    (hdec : env.decode (stripDataUrl s) = DecodeOutcome.success)
    (hmat : env.matcher = MatchOutcome.results ((best :: tl) :: fr))
    (hbelow : (1 - best.distance) < CONFIDENCE_THRESHOLD) :
    (recognize env Method.POST (some (JValue.jobj fields)) temp0).result =
        HandlerResult.resp 200 (matchResponse best env.excel) ∧
    fieldOf (matchResponse best env.excel) "match" = some (RJson.rbool false) ∧
    fieldOf (matchResponse best env.excel) "person_id" =
        some (RJson.rstr (splitextRoot (basename best.identity))) ∧
    fieldOf (matchResponse best env.excel) "person_name" =
        some (RJson.rstr
          (nameOrFallback (lookupName env.excel (splitextRoot (basename best.identity)))
            (splitextRoot (basename best.identity)))) ∧
    fieldOf (matchResponse best env.excel) "confidence" =
        some (RJson.rnum (roundPy1 ((1 - best.distance) * 100))) ∧
    fieldOf (matchResponse best env.excel) "distance" =
        some (RJson.rnum best.distance) := by
  refine ⟨recognize_match_result env fields s best tl fr temp0 himg hs hdec hmat,
    ?_, rfl, rfl, rfl, rfl⟩
  rw [matchResponse_eq]
  simp [fieldOf, if_neg (not_le.mpr hbelow)]

/-- Witness for amended C10 at distance `1/2` (confidence 50, below the
threshold 60). -/
theorem recognize_below_threshold_witness :
    ((recognize (envSuccess (MatchOutcome.results [[⟨"data/007.jpg", 1/2⟩]])
          (some [⟨"007", "Bob"⟩]))
        Method.POST (some (JValue.jobj [("image", JValue.jstr "img")])) false).result =
        HandlerResult.resp 200
          (matchResponse ⟨"data/007.jpg", 1/2⟩ (some [⟨"007", "Bob"⟩])) ∧
      fieldOf (matchResponse ⟨"data/007.jpg", 1/2⟩ (some [⟨"007", "Bob"⟩])) "match" =
        some (RJson.rbool false) ∧
      fieldOf (matchResponse ⟨"data/007.jpg", 1/2⟩ (some [⟨"007", "Bob"⟩])) "person_id" =
        some (RJson.rstr (splitextRoot (basename "data/007.jpg"))) ∧
      fieldOf (matchResponse ⟨"data/007.jpg", 1/2⟩ (some [⟨"007", "Bob"⟩])) "person_name" =
        some (RJson.rstr
          (nameOrFallback
            (lookupName (some [⟨"007", "Bob"⟩]) (splitextRoot (basename "data/007.jpg")))
            (splitextRoot (basename "data/007.jpg")))) ∧
      fieldOf (matchResponse ⟨"data/007.jpg", 1/2⟩ (some [⟨"007", "Bob"⟩])) "confidence" =
        some (RJson.rnum (roundPy1 ((1 - (1/2 : ℚ)) * 100))) ∧
      fieldOf (matchResponse ⟨"data/007.jpg", 1/2⟩ (some [⟨"007", "Bob"⟩])) "distance" =
        some (RJson.rnum (1/2))) ∧
    nameOrFallback (lookupName (some [⟨"007", "Bob"⟩]) "007") "007" = "Bob" :=
  ⟨recognize_below_threshold _ _ "img" _ [] [] false rfl (by decide) rfl rfl
    (by norm_num [CONFIDENCE_THRESHOLD]), by decide⟩

end SafeReturn
